import Mathlib

/-!
Verification of `personal_config/keyboard_layout_state.py`
(`KeyboardLayoutStateX11`, a qtile status-bar widget for X11 keyboard layouts).

Shallow embedding conventions:
* External process invocations (`subprocess.check_output`) are modelled by an
  explicit outcome parameter `ProcResult`: the process either succeeds with some
  stdout text, raises `subprocess.CalledProcessError` (non-zero exit), or raises
  `OSError` (binary unavailable).
* Each method is a pure function of the widget configuration and of those
  outcomes; the commands it spawns, the log lines it emits and the exception it
  lets propagate (if any) are returned explicitly in an `InvokeResult`.
* Python `dict`s become association lists (`List (String × String)`); insertion
  order is kept and keys are distinct, so `List.lookup` is exactly dict lookup.
* Python truthiness of strings / `shutil.which` results is modelled explicitly
  (`≠ ""` / `falsyPath`).
-/

namespace KeyboardLayoutStateX11

/-- Exceptions that the Python code can raise or catch. `configError` is
qtile's `libqtile.confreader.ConfigError`; `keyError` is Python's built-in
`KeyError` raised by a failing dict subscript; the last two are the
`subprocess` / OS errors raised by `subprocess.check_output`. -/
inductive PyError where
  | configError (msg : String)
  | keyError (key : String)
  | calledProcessError
  | osError
deriving Repr, DecidableEq

/-- Outcome of one `subprocess.check_output(command)` call: success with the
process stdout (already decoded to text), or one of the two exception classes
the code guards against. -/
inductive ProcResult where
  | ok (stdout : String)
  | calledProcessError
  | osError
deriving Repr, DecidableEq

/-- The log lines emitted through `logger.error`, abstracted to which message
was logged (the formatted exception text is irrelevant to the claims). -/
inductive LogEvent where
  | cantClearOldLayouts
  | cantChangeLayout
  | cantGetLayout
  | cantSwitchNext
  | checkSetxkbmapAvailable
  | checkXkblayoutStateAvailable
deriving Repr, DecidableEq

/-- Observable result of running one widget method: the external commands it
spawned (each an argv list), the log lines it emitted, and the exception it let
propagate to the caller, if any. -/
structure InvokeResult where
  cmds : List (List String)
  logs : List LogEvent
  raised : Option PyError
deriving Repr, DecidableEq

/-- The widget configuration, mirroring `KeyboardLayoutStateX11.defaults`
(each field's default value is the one declared there). `display_map` is an
association list standing for the Python dict. -/
structure Config where
  update_interval : Nat := 1
  configured_layouts : List String := ["us"]
  display_map : List (String × String) := []
  mode : String := "default"
  flag_basedir : Option String := none
  switch_hotkey : String := "Left Alt+Left Shift"
deriving Repr, DecidableEq

/-- Python `str.upper()`, character-wise upper-casing (the layout codes and
the `"unknown"` sentinel are ASCII, where `Char.toUpper` agrees with Python). -/
def pyUpper (s : String) : String := ⟨s.data.map Char.toUpper⟩

/-- Python `str.strip()` with no argument: removes leading and trailing
whitespace (for the ASCII whitespace relevant here, `Char.isWhitespace`
agrees with Python). -/
def pyStrip (s : String) : String :=
  ⟨((s.data.dropWhile Char.isWhitespace).reverse.dropWhile Char.isWhitespace).reverse⟩

/-- Python `s.startswith(pre)`. -/
def pyStartsWith (s pre : String) : Bool := pre.data.isPrefixOf s.data

/-- The static `switch_hotkey_options` dict from `_generate_option`, in source
order. -/
def switch_hotkey_options : List (String × String) := [
  ("Left Alt (while pressed)", "grp:lswitch"),
  ("Left Win (while pressed)", "grp:lwin_switch"),
  ("Right Win (while pressed)", "grp:rwin_switch"),
  ("Any Win key (while pressed)", "grp:win_switch"),
  ("Caps Lock (while pressed), Alt+Caps Lock does the original capslock action", "grp:caps_switch"),
  ("Right Ctrl (while pressed)", "grp:rctrl_switch"),
  ("Right Alt", "grp:toggle"),
  ("Left Alt", "grp:lalt_toggle"),
  ("Caps Lock", "grp:caps_toggle"),
  ("Shift+Caps Lock", "grp:shift_caps_toggle"),
  ("Caps Lock (to first layout), Shift+Caps Lock (to last layout)", "grp:shift_caps_switch"),
  ("Left Win (to first layout), Right Win/Menu (to last layout)", "grp:win_menu_switch"),
  ("Left Ctrl (to first layout), Right Ctrl (to last layout)", "grp:lctrl_rctrl_switch"),
  ("Alt+Caps Lock", "grp:alt_caps_toggle"),
  ("Both Shift keys together", "grp:shifts_toggle"),
  ("Both Alt keys together", "grp:alts_toggle"),
  ("Both Ctrl keys together", "grp:ctrls_toggle"),
  ("Ctrl+Shift", "grp:ctrl_shift_toggle"),
  ("Left Ctrl+Left Shift", "grp:lctrl_lshift_toggle"),
  ("Right Ctrl+Right Shift", "grp:rctrl_rshift_toggle"),
  ("Alt+Ctrl", "grp:ctrl_alt_toggle"),
  ("Alt+Shift", "grp:alt_shift_toggle"),
  ("Left Alt+Left Shift", "grp:lalt_lshift_toggle"),
  ("Alt+Space", "grp:alt_space_toggle"),
  ("Menu", "grp:menu_toggle"),
  ("Left Win", "grp:lwin_toggle"),
  ("Win Key+Space", "grp:win_space_toggle"),
  ("Right Win", "grp:rwin_toggle"),
  ("Left Shift", "grp:lshift_toggle"),
  ("Right Shift", "grp:rshift_toggle"),
  ("Left Ctrl", "grp:lctrl_toggle"),
  ("Right Ctrl", "grp:rctrl_toggle"),
  ("Scroll Lock", "grp:sclk_toggle"),
  ("LeftCtrl+LeftWin (to first layout), RightCtrl+Menu (to second layout)", "grp:lctrl_lwin_rctrl_menu")]

/-- `_generate_option`. The Python body is
`try: return switch_hotkey_options[self.switch_hotkey]
 except ValueError: raise ConfigError(... "unknown hotkey" ...)`.
A dict subscript with a missing key raises `KeyError`, which is not a subclass
of `ValueError`, so the handler never fires: the missing-key case propagates as
a bare `KeyError` and the `ConfigError` branch is unreachable. -/
def _generate_option (switch_hotkey : String) : Except PyError String :=
  match switch_hotkey_options.lookup switch_hotkey with
  | some v => .ok v
  | none => .error (.keyError switch_hotkey)

/-- The fixed clear command of `_clear_old_layouts_config`:
`["setxkbmap", "-layout", '', "-variant", '', "-option", '']`. -/
def clear_command : List String :=
  ["setxkbmap", "-layout", "", "-variant", "", "-option", ""]

/-- `_clear_old_layouts_config`: runs `clear_command` once; both
`subprocess.CalledProcessError` and `OSError` are caught and logged, so nothing
propagates. -/
def _clear_old_layouts_config (r : ProcResult) : InvokeResult :=
  match r with
  | .ok _ => ⟨[clear_command], [], none⟩
  | .calledProcessError => ⟨[clear_command], [.cantClearOldLayouts], none⟩
  | .osError => ⟨[clear_command], [.checkSetxkbmapAvailable], none⟩

/-- `_configure_layouts`: builds
`["setxkbmap", "-layout", ",".join(self.configured_layouts)]`, extends it with
`["-option", self._option]` when `self._option` is truthy (a non-empty string),
runs it, and catches both exception classes. -/
def _configure_layouts (cfg : Config) (option : String) (r : ProcResult) : InvokeResult :=
  let command := ["setxkbmap", "-layout", String.intercalate "," cfg.configured_layouts]
  let command := if option ≠ "" then command ++ ["-option", option] else command
  match r with
  | .ok _ => ⟨[command], [], none⟩
  | .calledProcessError => ⟨[command], [.cantChangeLayout], none⟩
  | .osError => ⟨[command], [.checkSetxkbmapAvailable], none⟩

/-- Python truthiness test `if not path:` applied to a `shutil.which` result:
true for `None` and for the empty string. -/
def falsyPath : Option String → Bool
  | none => true
  | some p => p = ""

/-- `_configure` (after the `base.InLoopPollText._configure` call): raises
`ConfigError` if the backend is not `"x11"`; then checks `shutil.which` for
`"setxkbmap"` and `"xkblayout-state"` in that order, raising `ConfigError` on
the first falsy result; then resolves `self._option` via `_generate_option`
(whose failure propagates) and finally runs `_clear_old_layouts_config` and
`_configure_layouts`. `backend` stands for `qtile.core.name` and `which` for
`shutil.which`; `rClear` / `rApply` are the outcomes of the two spawned
commands. -/
def _configure (backend : String) (which : String → Option String) (cfg : Config)
    (rClear rApply : ProcResult) : InvokeResult :=
  if backend ≠ "x11" then
    ⟨[], [], some (.configError ("KeyboardLayoutStateX11 does not support backend: " ++ backend))⟩
  else if falsyPath (which "setxkbmap") then
    ⟨[], [], some (.configError "KeyboardLayoutStateX11 requires setxkbmap utility")⟩
  else if falsyPath (which "xkblayout-state") then
    ⟨[], [], some (.configError "KeyboardLayoutStateX11 requires xkblayout-state utility")⟩
  else
    match _generate_option cfg.switch_hotkey with
    | .error e => ⟨[], [], some e⟩
    | .ok opt =>
      let c := _clear_old_layouts_config rClear
      let a := _configure_layouts cfg opt rApply
      ⟨c.cmds ++ a.cmds, c.logs ++ a.logs, none⟩

/-- `get_layout`: runs `xkblayout-state print %s`; on success strips the
output and returns it only if it is in `configured_layouts`; every other path
(stripped output not configured, `CalledProcessError`, `OSError`) returns the
sentinel `"unknown"`, logging in the exception cases. Returns the layout string
together with the emitted log lines; no exception escapes. -/
def get_layout (cfg : Config) (r : ProcResult) : String × List LogEvent :=
  match r with
  | .ok stdout =>
    let layout := pyStrip stdout
    if layout ∈ cfg.configured_layouts then (layout, []) else ("unknown", [])
  | .calledProcessError => ("unknown", [.cantGetLayout])
  | .osError => ("unknown", [.checkXkblayoutStateAvailable])

/-- `next_layout`: runs `xkblayout-state set +1`; both exception classes are
caught and logged. The configuration is in scope (`self`) but unused. -/
def next_layout (_cfg : Config) (r : ProcResult) : InvokeResult :=
  match r with
  | .ok _ => ⟨[["xkblayout-state", "set", "+1"]], [], none⟩
  | .calledProcessError => ⟨[["xkblayout-state", "set", "+1"]], [.cantSwitchNext], none⟩
  | .osError => ⟨[["xkblayout-state", "set", "+1"]], [.checkXkblayoutStateAvailable], none⟩

/-- `poll`: calls `get_layout`; if the result is a key of `display_map`,
returns the mapped value, otherwise the upper-cased layout code. -/
def poll (cfg : Config) (r : ProcResult) : String :=
  let layout := (get_layout cfg r).1
  match cfg.display_map.lookup layout with
  | some v => v
  | none => pyUpper layout

end KeyboardLayoutStateX11

namespace KeyboardLayoutStateX11

/- Helper lemmas about association-list lookup. -/

theorem lookup_none_of_key_pred (p : String → Bool) :
    ∀ (l : List (String × String)) (s : String),
      (∀ kv ∈ l, p kv.1 = false) → p s = true → List.lookup s l = none := by
  intro l
  induction l with
  | nil => intro s _ _; rfl
  | cons kv t ih =>
    intro s hall hs
    obtain ⟨k, v⟩ := kv
    have hk : p k = false := hall (k, v) (List.mem_cons_self _ _)
    rw [List.lookup]
    by_cases heq : s = k
    · subst heq
      rw [hk] at hs
      exact absurd hs (by simp)
    · have hb : (s == k) = false := by
        simp only [beq_eq_false_iff_ne, ne_eq]
        exact heq
      rw [hb]
      exact ih s (fun kv hm => hall kv (List.mem_cons_of_mem _ hm)) hs

theorem mem_of_lookup_eq_some :
    ∀ (l : List (String × String)) (k v : String),
      List.lookup k l = some v → (k, v) ∈ l := by
  intro l
  induction l with
  | nil => intro k v h; simp [List.lookup] at h
  | cons kv t ih =>
    intro k v h
    obtain ⟨k', v'⟩ := kv
    rw [List.lookup] at h
    by_cases heq : k = k'
    · subst heq
      simp only [beq_self_eq_true, if_pos] at h
      obtain rfl : v' = v := by injection h
      exact List.mem_cons_self _ _
    · have hb : (k == k') = false := by
        simp only [beq_eq_false_iff_ne, ne_eq]
        exact heq
      rw [hb] at h
      simp only [if_neg Bool.false_ne_true] at h
      exact List.mem_cons_of_mem _ (ih k v h)

theorem lookup_eq_of_mem_nodup :
    ∀ (l : List (String × String)) (k v : String),
      (l.map Prod.fst).Nodup → (k, v) ∈ l → List.lookup k l = some v := by
  intro l
  induction l with
  | nil => intro k v _ h; simp at h
  | cons kv t ih =>
    intro k v hnd hm
    obtain ⟨k', v'⟩ := kv
    rw [List.map_cons, List.nodup_cons] at hnd
    rw [List.lookup]
    rcases List.mem_cons.mp hm with hhead | htail
    · injection hhead with h1 h2
      subst h1
      subst h2
      simp
    · have hk : k ≠ k' := by
        intro hkk
        subst hkk
        exact hnd.1 (List.mem_map.mpr ⟨(k, v), htail, rfl⟩)
      have hb : (k == k') = false := by
        simp only [beq_eq_false_iff_ne, ne_eq]
        exact hk
      rw [hb]
      simp only [if_neg Bool.false_ne_true]
      exact ih k v hnd.2 htail

/- Facts about the static hotkey table, established by evaluation. -/

theorem hotkey_keys_nodup : (switch_hotkey_options.map Prod.fst).Nodup := by decide

theorem hotkey_keys_not_grp :
    ∀ kv ∈ switch_hotkey_options, pyStartsWith kv.1 "grp:" = false := by decide

theorem hotkey_values_grp :
    ∀ kv ∈ switch_hotkey_options, pyStartsWith kv.2 "grp:" = true ∧ kv.2 ≠ "" := by decide

theorem generate_option_ok_iff_lookup (s v : String) :
    _generate_option s = .ok v ↔ switch_hotkey_options.lookup s = some v := by
  unfold _generate_option
  cases h : switch_hotkey_options.lookup s <;> simp

/-- C1, counterexample: the selector `"grp:toggle"` starts with `grp:` but
`_generate_option` does not return it unchanged (it raises `KeyError`, since
the selector is not a key of the table and there is no pass-through branch in
the code). -/
theorem c1_counterexample :
    pyStartsWith "grp:toggle" "grp:" = true ∧
      _generate_option "grp:toggle" ≠ .ok "grp:toggle" := by
  constructor
  · decide
  · intro h
    simp [generate_option_ok_iff_lookup] at h
    revert h
    decide

/-- C1 (amended): `_generate_option` has no pass-through for selectors that
already carry the `grp:` prefix; since no key of the static table starts with
`grp:`, every such selector misses the table and the dict subscript raises
`KeyError` (uncaught, because the handler catches `ValueError`). -/
theorem c1_grp_selector_always_fails (s : String)
    (h : pyStartsWith s "grp:" = true) :
    _generate_option s = .error (.keyError s) := by
  unfold _generate_option
  rw [lookup_none_of_key_pred (fun k => pyStartsWith k "grp:") switch_hotkey_options s
    (fun kv hm => hotkey_keys_not_grp kv hm) h]

/-- C1, witness for the amended theorem at the concrete selector
`"grp:lswitch"` (a raw option string that even appears as a value of the
table). -/
theorem c1_grp_selector_always_fails_witness :
    _generate_option "grp:lswitch" = .error (.keyError "grp:lswitch") :=
  c1_grp_selector_always_fails "grp:lswitch" (by decide)

/-- C2: evaluation of the code at the failing input. For a hotkey name absent
from the table (here `"Ctrl+Alt+Del"`), the dict subscript in
`_generate_option` raises `KeyError`; the `except ValueError` clause does not
match `KeyError`, so the intended `ConfigError(... "unknown hotkey" ...)` is
never raised and the bare `KeyError` propagates instead. -/
theorem c2_missing_hotkey_raises_keyerror :
    _generate_option "Ctrl+Alt+Del" = .error (.keyError "Ctrl+Alt+Del") := rfl

/-- C3: every key of the static hotkey table resolves to exactly the mapped
option string, and every option string `_generate_option` can return is a
non-empty string starting with `grp:`. -/
theorem c3_table_lookup_exact (k v : String) :
    ((k, v) ∈ switch_hotkey_options → _generate_option k = .ok v) ∧
      (_generate_option k = .ok v → pyStartsWith v "grp:" = true ∧ v ≠ "") := by
  constructor
  · intro hm
    rw [generate_option_ok_iff_lookup]
    exact lookup_eq_of_mem_nodup switch_hotkey_options k v hotkey_keys_nodup hm
  · intro hok
    rw [generate_option_ok_iff_lookup] at hok
    exact hotkey_values_grp (k, v) (mem_of_lookup_eq_some switch_hotkey_options k v hok)

/-- C3, witness at the default hotkey `"Left Alt+Left Shift"`. -/
theorem c3_table_lookup_exact_witness :
    (("Left Alt+Left Shift", "grp:lalt_lshift_toggle") ∈ switch_hotkey_options →
        _generate_option "Left Alt+Left Shift" = .ok "grp:lalt_lshift_toggle") ∧
      (_generate_option "Left Alt+Left Shift" = .ok "grp:lalt_lshift_toggle" →
        pyStartsWith "grp:lalt_lshift_toggle" "grp:" = true ∧
          "grp:lalt_lshift_toggle" ≠ "") :=
  c3_table_lookup_exact "Left Alt+Left Shift" "grp:lalt_lshift_toggle"

/-- C4: `get_layout` always returns either a configured layout or the
sentinel `"unknown"`; on success it returns the stripped stdout exactly when
that stripped value is configured and `"unknown"` otherwise; on a failed
invocation (non-zero exit or missing binary) it returns `"unknown"` — and by
its very type it never lets an exception escape. -/
theorem c4_get_layout_configured_or_unknown (cfg : Config) (r : ProcResult) :
    ((get_layout cfg r).1 ∈ cfg.configured_layouts ∨ (get_layout cfg r).1 = "unknown") ∧
      (∀ out, r = .ok out →
        (pyStrip out ∈ cfg.configured_layouts → (get_layout cfg r).1 = pyStrip out) ∧
          (pyStrip out ∉ cfg.configured_layouts → (get_layout cfg r).1 = "unknown")) ∧
      ((r = .calledProcessError ∨ r = .osError) → (get_layout cfg r).1 = "unknown") := by
  cases r with
  | ok stdout =>
    refine ⟨?_, ?_, by simp⟩
    · by_cases hm : pyStrip stdout ∈ cfg.configured_layouts
      · left
        simp [get_layout, hm]
      · right
        simp [get_layout, hm]
    · intro out hout
      obtain rfl : stdout = out := by injection hout
      exact ⟨fun hm => by simp [get_layout, hm], fun hm => by simp [get_layout, hm]⟩
  | calledProcessError => exact ⟨Or.inr rfl, by simp, fun _ => rfl⟩
  | osError => exact ⟨Or.inr rfl, by simp, fun _ => rfl⟩

/-- C4, witness: with layouts `["us", "de"]` and the query printing `"fr"`,
`get_layout` returns the sentinel `"unknown"`. -/
theorem c4_get_layout_configured_or_unknown_witness :
    (get_layout (Config.mk 1 ["us", "de"] [] "default" none "Left Alt+Left Shift")
        (.ok "fr")).1 = "unknown" :=
  ((c4_get_layout_configured_or_unknown
      (Config.mk 1 ["us", "de"] [] "default" none "Left Alt+Left Shift")
      (.ok "fr")).2.1 "fr" rfl).2 (by decide)

/-- C5: `poll` returns the `display_map` entry verbatim when the current
layout is a key of the map, and the upper-cased layout code otherwise; in
particular with an empty display map the sentinel `"unknown"` is displayed as
the literal `"UNKNOWN"`. -/
theorem c5_poll_display_text (cfg : Config) (r : ProcResult) :
    (∀ v, cfg.display_map.lookup (get_layout cfg r).1 = some v → poll cfg r = v) ∧
      (cfg.display_map.lookup (get_layout cfg r).1 = none →
        poll cfg r = pyUpper (get_layout cfg r).1) ∧
      (cfg.display_map = [] → (get_layout cfg r).1 = "unknown" →
        poll cfg r = "UNKNOWN") := by
  refine ⟨?_, ?_, ?_⟩
  · intro v hv
    simp only [poll, hv]
  · intro hn
    simp only [poll, hn]
  · intro hmap hu
    simp only [poll, hmap, hu, List.lookup]
    decide

/-- C5, witness: layout `"us"` with map `[("us", "EN")]` displays `"EN"`. -/
theorem c5_poll_display_text_witness :
    poll (Config.mk 1 ["us"] [("us", "EN")] "default" none "Left Alt+Left Shift")
      (.ok "us") = "EN" :=
  (c5_poll_display_text
      (Config.mk 1 ["us"] [("us", "EN")] "default" none "Left Alt+Left Shift")
      (.ok "us")).1 "EN" (by decide)

theorem clear_cmds (r : ProcResult) :
    (_clear_old_layouts_config r).cmds = [clear_command] := by
  cases r <;> rfl

theorem apply_cmds (cfg : Config) (opt : String) (r : ProcResult) :
    (_configure_layouts cfg opt r).cmds =
      [["setxkbmap", "-layout", String.intercalate "," cfg.configured_layouts] ++
        (if opt ≠ "" then ["-option", opt] else [])] := by
  cases r <;>
  · simp only [_configure_layouts]
    by_cases h : opt = "" <;> simp [h]

/-- C6: whenever `_configure` completes without raising, it has issued exactly
the two external commands, the clear command first and then the apply command
(`setxkbmap -layout <comma-joined layouts>` with `-option <resolved option>`
appended when the resolved option is a non-empty string), regardless of the
outcomes of the two spawned processes. -/
theorem c6_configure_issues_clear_then_apply (backend : String)
    (which : String → Option String) (cfg : Config) (rClear rApply : ProcResult)
    (opt : String) (hopt : _generate_option cfg.switch_hotkey = .ok opt)
    (herr : (_configure backend which cfg rClear rApply).raised = none) :
    (_configure backend which cfg rClear rApply).cmds =
      [clear_command,
        ["setxkbmap", "-layout", String.intercalate "," cfg.configured_layouts] ++
          (if opt ≠ "" then ["-option", opt] else [])] := by
  unfold _configure at herr ⊢
  by_cases hb : backend ≠ "x11"
  · simp [hb] at herr
  · by_cases h1 : falsyPath (which "setxkbmap")
    · simp [hb, h1] at herr
    · by_cases h2 : falsyPath (which "xkblayout-state")
      · simp [hb, h1, h2] at herr
      · simp only [hb, h1, h2, if_false, ite_false, hopt]
        simp [clear_cmds, apply_cmds]

/-- C6, witness: a successful setup on x11 with the default configuration
issues the clear command and then `setxkbmap -layout us -option
grp:lalt_lshift_toggle`. -/
theorem c6_configure_issues_clear_then_apply_witness :
    (_configure "x11" (fun _ => some "/usr/bin/p")
        (Config.mk 1 ["us"] [] "default" none "Left Alt+Left Shift")
        (.ok "") (.ok "")).cmds =
      [clear_command,
        ["setxkbmap", "-layout", String.intercalate "," ["us"]] ++
          (if "grp:lalt_lshift_toggle" ≠ "" then
            ["-option", "grp:lalt_lshift_toggle"] else [])] :=
  c6_configure_issues_clear_then_apply "x11" (fun _ => some "/usr/bin/p")
    (Config.mk 1 ["us"] [] "default" none "Left Alt+Left Shift")
    (.ok "") (.ok "") "grp:lalt_lshift_toggle" rfl rfl

/-- C7: runtime failures of the external commands (non-zero exit or missing
binary) during the clear, apply and advance operations are absorbed: none of
`_clear_old_layouts_config`, `_configure_layouts` and `next_layout` lets an
exception propagate, for any process outcome; consequently `_configure` can
never propagate a `CalledProcessError` or an `OSError` either. -/
theorem c7_runtime_failures_absorbed (cfg : Config) (opt : String)
    (backend : String) (which : String → Option String) (rc ra rn : ProcResult) :
    (_clear_old_layouts_config rc).raised = none ∧
      (_configure_layouts cfg opt ra).raised = none ∧
      (next_layout cfg rn).raised = none ∧
      (_configure backend which cfg rc ra).raised ≠ some .calledProcessError ∧
      (_configure backend which cfg rc ra).raised ≠ some .osError := by
  refine ⟨by cases rc <;> rfl, by cases ra <;> rfl, by cases rn <;> rfl, ?_, ?_⟩ <;>
  · unfold _configure
    split
    · simp
    · split
      · simp
      · split
        · simp
        · cases hgen : _generate_option cfg.switch_hotkey with
          | error e =>
            have hk : ∃ k, e = PyError.keyError k := by
              revert hgen
              unfold _generate_option
              cases switch_hotkey_options.lookup cfg.switch_hotkey <;> simp
              intro h
              exact ⟨cfg.switch_hotkey, h.symm⟩
            obtain ⟨k, rfl⟩ := hk
            simp
          | ok v => simp

/-- C7, witness at concrete failing process outcomes. -/
theorem c7_runtime_failures_absorbed_witness :
    (_clear_old_layouts_config .calledProcessError).raised = none ∧
      (_configure_layouts (Config.mk 1 ["us"] [] "default" none "Left Alt+Left Shift")
        "grp:toggle" .osError).raised = none ∧
      (next_layout (Config.mk 1 ["us"] [] "default" none "Left Alt+Left Shift")
        .calledProcessError).raised = none ∧
      (_configure "x11" (fun _ => some "/usr/bin/p")
        (Config.mk 1 ["us"] [] "default" none "Left Alt+Left Shift")
        .calledProcessError .osError).raised ≠ some .calledProcessError ∧
      (_configure "x11" (fun _ => some "/usr/bin/p")
        (Config.mk 1 ["us"] [] "default" none "Left Alt+Left Shift")
        .calledProcessError .osError).raised ≠ some .osError :=
  c7_runtime_failures_absorbed
    (Config.mk 1 ["us"] [] "default" none "Left Alt+Left Shift") "grp:toggle"
    "x11" (fun _ => some "/usr/bin/p") .calledProcessError .osError .calledProcessError

/-- C8: if the backend is not `"x11"` or either required utility is not
resolvable on the search path, `_configure` stops with a `ConfigError` before
issuing any external command; conversely, whenever no `ConfigError` is raised,
the backend was `"x11"` and both utilities were found. -/
theorem c8_setup_preconditions (backend : String) (which : String → Option String)
    (cfg : Config) (rc ra : ProcResult) :
    ((backend ≠ "x11" ∨ which "setxkbmap" = none ∨ which "xkblayout-state" = none) →
      (∃ msg, (_configure backend which cfg rc ra).raised = some (.configError msg)) ∧
        (_configure backend which cfg rc ra).cmds = []) ∧
      ((∀ msg, (_configure backend which cfg rc ra).raised ≠ some (.configError msg)) →
        backend = "x11" ∧ (which "setxkbmap").isSome ∧ (which "xkblayout-state").isSome) := by
  constructor
  · intro h
    by_cases hb : backend = "x11"
    · rcases h with h | h | h
      · exact absurd hb h
      · have h1 : falsyPath (which "setxkbmap") = true := by rw [h]; rfl
        refine ⟨⟨"KeyboardLayoutStateX11 requires setxkbmap utility", ?_⟩, ?_⟩ <;>
          (unfold _configure; simp [hb, h1])
      · by_cases h1 : falsyPath (which "setxkbmap")
        · refine ⟨⟨"KeyboardLayoutStateX11 requires setxkbmap utility", ?_⟩, ?_⟩ <;>
            (unfold _configure; simp [hb, h1])
        · have h2 : falsyPath (which "xkblayout-state") = true := by rw [h]; rfl
          refine ⟨⟨"KeyboardLayoutStateX11 requires xkblayout-state utility", ?_⟩, ?_⟩ <;>
            (unfold _configure; simp [hb, h1, h2])
    · refine ⟨⟨"KeyboardLayoutStateX11 does not support backend: " ++ backend, ?_⟩, ?_⟩ <;>
        (unfold _configure; simp [hb])
  · intro hno
    by_cases hb : backend = "x11"
    · by_cases h1 : falsyPath (which "setxkbmap")
      · exact absurd (by unfold _configure; simp [hb, h1])
          (hno "KeyboardLayoutStateX11 requires setxkbmap utility")
      · by_cases h2 : falsyPath (which "xkblayout-state")
        · exact absurd (by unfold _configure; simp [hb, h1, h2])
            (hno "KeyboardLayoutStateX11 requires xkblayout-state utility")
        · refine ⟨hb, ?_, ?_⟩
          · cases hw : which "setxkbmap" with
            | none => exact absurd (by rw [hw]; rfl) h1
            | some p => rfl
          · cases hw : which "xkblayout-state" with
            | none => exact absurd (by rw [hw]; rfl) h2
            | some p => rfl
    · exact absurd (by unfold _configure; simp [hb])
        (hno ("KeyboardLayoutStateX11 does not support backend: " ++ backend))

/-- C8, witness: on a `"wayland"` backend `_configure` raises a `ConfigError`
and issues no command at all. -/
theorem c8_setup_preconditions_witness :
    (∃ msg, (_configure "wayland" (fun _ => none)
        (Config.mk 1 ["us"] [] "default" none "Left Alt+Left Shift")
        (.ok "") (.ok "")).raised = some (.configError msg)) ∧
      (_configure "wayland" (fun _ => none)
        (Config.mk 1 ["us"] [] "default" none "Left Alt+Left Shift")
        (.ok "") (.ok "")).cmds = [] :=
  (c8_setup_preconditions "wayland" (fun _ => none)
      (Config.mk 1 ["us"] [] "default" none "Left Alt+Left Shift")
      (.ok "") (.ok "")).1 (Or.inl (by decide))

/-- C9: the configuration fields `mode` and `flag_basedir` have no effect on
any observable behaviour: changing only them leaves the results of
`_configure`, `get_layout`, `next_layout` and `poll` (commands issued, logs,
exceptions and return values) unchanged. -/
theorem c9_mode_and_flag_basedir_have_no_effect (cfg : Config) (m : String)
    (fb : Option String) (backend : String) (which : String → Option String)
    (rc ra r rn : ProcResult) :
    _configure backend which
        (Config.mk cfg.update_interval cfg.configured_layouts cfg.display_map m fb
          cfg.switch_hotkey) rc ra = _configure backend which cfg rc ra ∧
      get_layout
        (Config.mk cfg.update_interval cfg.configured_layouts cfg.display_map m fb
          cfg.switch_hotkey) r = get_layout cfg r ∧
      next_layout
        (Config.mk cfg.update_interval cfg.configured_layouts cfg.display_map m fb
          cfg.switch_hotkey) rn = next_layout cfg rn ∧
      poll
        (Config.mk cfg.update_interval cfg.configured_layouts cfg.display_map m fb
          cfg.switch_hotkey) r = poll cfg r :=
  ⟨rfl, rfl, rfl, rfl⟩

/-- C9, witness: switching `mode` to `"flag"` and setting a `flag_basedir`
changes nothing observable at concrete inputs. -/
theorem c9_mode_and_flag_basedir_have_no_effect_witness :
    _configure "x11" (fun _ => some "/usr/bin/p")
        (Config.mk 1 ["us"] [("us", "EN")] "flag" (some "/tmp/flags") "Left Alt+Left Shift")
        (.ok "") (.ok "") =
      _configure "x11" (fun _ => some "/usr/bin/p")
        (Config.mk 1 ["us"] [("us", "EN")] "default" none "Left Alt+Left Shift")
        (.ok "") (.ok "") ∧
      get_layout
        (Config.mk 1 ["us"] [("us", "EN")] "flag" (some "/tmp/flags") "Left Alt+Left Shift")
        (.ok "us") =
      get_layout
        (Config.mk 1 ["us"] [("us", "EN")] "default" none "Left Alt+Left Shift")
        (.ok "us") ∧
      next_layout
        (Config.mk 1 ["us"] [("us", "EN")] "flag" (some "/tmp/flags") "Left Alt+Left Shift")
        (.ok "") =
      next_layout
        (Config.mk 1 ["us"] [("us", "EN")] "default" none "Left Alt+Left Shift")
        (.ok "") ∧
      poll
        (Config.mk 1 ["us"] [("us", "EN")] "flag" (some "/tmp/flags") "Left Alt+Left Shift")
        (.ok "us") =
      poll
        (Config.mk 1 ["us"] [("us", "EN")] "default" none "Left Alt+Left Shift")
        (.ok "us") :=
  c9_mode_and_flag_basedir_have_no_effect
    (Config.mk 1 ["us"] [("us", "EN")] "default" none "Left Alt+Left Shift")
    "flag" (some "/tmp/flags") "x11" (fun _ => some "/usr/bin/p")
    (.ok "") (.ok "") (.ok "us") (.ok "")

/-- C10: when the display map has an entry for the sentinel `"unknown"`, a
failed or out-of-set query makes `poll` return that entry rather than the
literal `"UNKNOWN"`: the sentinel participates in display-map lookup exactly
like an ordinary layout code. -/
theorem c10_unknown_sentinel_uses_display_map (cfg : Config) (r : ProcResult)
    (v : String) (hv : cfg.display_map.lookup "unknown" = some v)
    (h : r = .calledProcessError ∨ r = .osError ∨
      ∃ out, r = .ok out ∧ pyStrip out ∉ cfg.configured_layouts) :
    poll cfg r = v := by
  have hu : (get_layout cfg r).1 = "unknown" := by
    rcases h with h | h | ⟨out, rfl, hout⟩
    · rw [h]; rfl
    · rw [h]; rfl
    · simp [get_layout, hout]
  simp only [poll, hu, hv]

/-- C10, witness: display map `[("unknown", "??")]`, configured layouts
`["us"]`, query printing `"fr"` — `poll` displays `"??"`. -/
theorem c10_unknown_sentinel_uses_display_map_witness :
    poll (Config.mk 1 ["us"] [("unknown", "??")] "default" none "Left Alt+Left Shift")
      (.ok "fr") = "??" :=
  c10_unknown_sentinel_uses_display_map
    (Config.mk 1 ["us"] [("unknown", "??")] "default" none "Left Alt+Left Shift")
    (.ok "fr") "??" rfl (Or.inr (Or.inr ⟨"fr", rfl, by decide⟩))

end KeyboardLayoutStateX11
